import Mathlib

set_option maxRecDepth 2000

/-!
Shallow embedding of `src/src/main.rs` from utahrobotics/actuator-controller.

The program is a terminal UI controlling a two-channel linear actuator over a
serial link.  We embed the view-model (`App`), its mutators, the key-event
handlers of the interaction loop, one iteration of the telemetry-reader task,
one iteration of the command-dispatcher task, and the startup path of `main`.

Machine integers are modelled as `Nat` with explicit `% 2 ^ w` where the Rust
code can overflow or casts truncate (`u32` addition, `as u16`).  `f64` values
are modelled by their 64-bit IEEE-754 bit patterns (a `Nat` below `2 ^ 64`);
`f64::from_le_bytes` is the little-endian recomposition of the bit pattern.

The `commands` module is not part of the sources; its types (`Direction`,
`Actuator`, `ActuatorCommand`) are reconstructed from their uses in `main.rs`,
and `ActuatorCommand::serialize` is modelled from the spec (see its doc
comment).
-/

namespace ActuatorController

/-- Rust `commands::Direction`, used as `Direction::Forward` / `Direction::Backward`
in `main.rs`. -/
inductive Direction
  | Forward
  | Backward
  deriving DecidableEq, Repr

/-- Rust `commands::Actuator`, used as `Actuator::M1` / `Actuator::M2` in
`main.rs`. -/
inductive Actuator
  | M1
  | M2
  deriving DecidableEq, Repr

/-- The string the Rust `Debug` derive prints for an `Actuator` value, used by
`format!("Switched to {:?}", app.actuator)` and the status table. -/
def Actuator.debugStr : Actuator → String
  | .M1 => "M1"
  | .M2 => "M2"

/-- Rust `commands::ActuatorCommand`: the tagged union sent over the command queue.
The Rust speed field is `u16`; we carry it as a `Nat`, with the `as u16`
truncation made explicit (`% 2 ^ 16`) at each site that performs it. -/
inductive ActuatorCommand
  | SetSpeed (speed : Nat) (actuator : Actuator)
  | SetDirection (dir : Direction) (actuator : Actuator)
  deriving DecidableEq, Repr

/-- The view-model `struct App` of `main.rs` (lines 16-23).  `speed` and
`max_speed` are `u32` (modelled as `Nat`); `actuator_len_meters` is an `f64`,
modelled by its 64-bit pattern. -/
structure App where
  speed : Nat
  direction : Direction
  max_speed : Nat
  status_message : String
  actuator : Actuator
  actuator_len_meters : Nat
  deriving DecidableEq, Repr

/-- Constructor `App::new` (lines 26-35): speed 0, forward, ceiling 65535, status
"Ready", actuator M1, telemetry 0.0 (bit pattern 0). -/
def App.new : App :=
  { speed := 0
    direction := .Forward
    max_speed := 65535
    status_message := "Ready"
    actuator := .M1
    actuator_len_meters := 0 }

/-- Method `App::increase_speed` (lines 37-39):
`self.speed = (self.speed + amount).min(self.max_speed)`.  The `u32` addition
wraps modulo `2 ^ 32`. -/
def App.increase_speed (app : App) (amount : Nat) : App :=
  { app with speed := min ((app.speed + amount) % 2 ^ 32) app.max_speed }

/-- Method `App::decrease_speed` (lines 41-43):
`self.speed = self.speed.saturating_sub(amount)`; `Nat` subtraction is exactly
the saturating subtraction on values below `2 ^ 32`. -/
def App.decrease_speed (app : App) (amount : Nat) : App :=
  { app with speed := app.speed - amount }

/-- Method `App::set_direction` (lines 45-47). -/
def App.set_direction (app : App) (dir : Direction) : App :=
  { app with direction := dir }

/-- Key events matched by the interaction loop (lines 191-242).  `Other`
stands for every key code falling into the `_ => {}` arm. -/
inductive KeyEvent
  | CharQ
  | CharS
  | Up
  | Down
  | Left
  | Right
  | CharPlus
  | CharMinus
  | CharA
  | Other
  deriving DecidableEq, Repr

/-- The actuator toggle inside the `'a'` handler (lines 234-238):
`if app.actuator == Actuator::M1 { M2 } else { M1 }`. -/
def Actuator.toggle : Actuator → Actuator
  | .M1 => .M2
  | .M2 => .M1

/-- One key event of the interaction loop (lines 191-242): the new view-model
and the list of commands enqueued on `tx`, in order.  `app.speed as u16` is
the truncation `% 2 ^ 16`.  `'q'` breaks the loop and mutates nothing, so it
is modelled as the identity with no commands. -/
def handleKey (app : App) (k : KeyEvent) : App × List ActuatorCommand :=
  match k with
  | .CharQ => (app, [])
  | .CharS =>
      let app1 := { app with speed := 0 }
      (app1, [.SetSpeed 0 app1.actuator])
  | .Up =>
      let app1 := app.increase_speed 1000
      (app1, [.SetSpeed (app1.speed % 2 ^ 16) app1.actuator])
  | .Down =>
      let app1 := app.decrease_speed 1000
      (app1, [.SetSpeed (app1.speed % 2 ^ 16) app1.actuator])
  | .Left =>
      let app1 := app.set_direction .Backward
      (app1, [.SetDirection .Backward app1.actuator])
  | .Right =>
      let app1 := app.set_direction .Forward
      (app1, [.SetDirection .Forward app1.actuator])
  | .CharPlus =>
      let app1 := app.increase_speed 5000
      (app1, [.SetSpeed (app1.speed % 2 ^ 16) app1.actuator])
  | .CharMinus =>
      let app1 := app.decrease_speed 5000
      (app1, [.SetSpeed (app1.speed % 2 ^ 16) app1.actuator])
  | .CharA =>
      let app1 := { app with speed := 0 }
      let cmd := ActuatorCommand.SetSpeed (app1.speed % 2 ^ 16) app1.actuator
      let app2 := { app1 with actuator := app1.actuator.toggle }
      let app3 := { app2 with status_message := "Switched to " ++ app2.actuator.debugStr }
      (app3, [cmd])
  | .Other => (app, [])

/-- Apply a sequence of key events to the view-model starting from
`App.new`, collecting every enqueued command in order. -/
def run (events : List KeyEvent) : App × List ActuatorCommand :=
  events.foldl
    (fun acc k =>
      let step := handleKey acc.1 k
      (step.1, acc.2 ++ step.2))
    (App.new, [])

/-- Little-endian recomposition of a byte list, head = least significant byte:
the bit-pattern reading `f64::from_le_bytes` performs on its 8-byte buffer
(line 104).  Each byte is taken modulo 256, as a `u8` is. -/
def fromLeBytes (bs : List Nat) : Nat :=
  bs.foldr (fun b acc => b % 256 + 256 * acc) 0

/-- Little-endian decomposition of a 64-bit pattern into its 8 bytes: the
device-side encoding (`f64::to_le_bytes`) whose output the telemetry reader
consumes. -/
def toLeBytes64 (x : Nat) : List Nat :=
  [x % 256, x / 256 % 256, x / 256 ^ 2 % 256, x / 256 ^ 3 % 256,
   x / 256 ^ 4 % 256, x / 256 ^ 5 % 256, x / 256 ^ 6 % 256, x / 256 ^ 7 % 256]

/-- The ways `read_exact` on the serial stream can fail (line 102): a partial
read that hit end-of-input after `got < 8` bytes, a timeout, or another I/O
error. -/
inductive ReadError
  | partialRead (got : Nat)
  | timeout
  | ioError (msg : String)
  deriving DecidableEq, Repr

/-- One iteration of the telemetry-reader task (lines 98-107), after its
10 ms sleep.  Input: the outcome of `read_exact` on the 8-byte buffer.
Output: the sample published to the telemetry queue (`actuator_tx`), if any;
the status messages generated (the reader owns a clone of `status_tx` but
never sends on it); and whether the loop continues to the next iteration. -/
def telemetryIter (r : Except ReadError (List Nat)) :
    Option Nat × List String × Bool :=
  match r with
  | .ok buf => (some (fromLeBytes buf), [], true)
  | .error _ => (none, [], true)

/-- The interaction loop draining `actuator_rx` (lines 140-142): a published
sample replaces `actuator_len_meters`; with nothing published the view-model
keeps its last sample. -/
def applyTelemetry (app : App) (t : Option Nat) : App :=
  match t with
  | some v => { app with actuator_len_meters := v }
  | none => app

/-- One iteration of the command-dispatcher task (lines 110-131): the status
message sent on `status_tx` for a dequeued command, given the outcome of
`try_write` on the serialized bytes.  The function is total — the task
matches on the write result and never propagates an error. -/
def dispatchStep (cmd : ActuatorCommand) (writeRes : Except String Nat) : String :=
  match writeRes with
  | .error e => "Serial error: " ++ e
  | .ok _ =>
      match cmd with
      | .SetSpeed speed _ => "Set speed to " ++ toString speed
      | .SetDirection dir _ =>
          let dir_str := if dir = Direction.Forward then "forward" else "backward"
          "Set direction to " ++ dir_str

/-- Modelled from the spec: the actuator-id byte of a command frame; M1 and
M2 get distinct byte values (the concrete values are not fixed by the
spec). -/
def actuatorId : Actuator → Nat
  | .M1 => 0
  | .M2 => 1

/-- Modelled from the spec: `ActuatorCommand::serialize` lives in the
`commands` module, which is absent from the sources (only `main.rs` is
present).  Spec sections 4.1 and 6 fix the frame layout: an opcode byte
discriminating SetSpeed from SetDirection, then an actuator-id byte, then
either a 16-bit little-endian speed value or a 1-byte direction flag.  The
concrete byte values of the opcodes, actuator ids and direction flag are not
fixed by the spec; distinct values are chosen per variant. -/
def ActuatorCommand.serialize : ActuatorCommand → List Nat
  | .SetSpeed speed a =>
      [0, actuatorId a, speed % 256, speed / 256 % 256]
  | .SetDirection dir a =>
      [1, actuatorId a, if dir = Direction.Forward then 1 else 0]

/-- Observable terminal and console effects of `main`, in program order. -/
inductive Eff
  | enableRawMode
  | enterAltScreen
  | enableMouseCapture
  | disableRawMode
  | leaveAltScreen
  | disableMouseCapture
  | showCursor
  | printErr (msg : String)
  | drawFrame
  deriving DecidableEq, Repr

/-- How `main` returns: `exitedOk` for `return Ok(())` on a startup error,
`runningUi` once it enters the render/input loop. -/
inductive MainOutcome
  | exitedOk
  | runningUi
  deriving DecidableEq, Repr

/-- The terminal-restore sequence (lines 66-72, 82-88, 248-254):
`disable_raw_mode()`, `execute!(LeaveAlternateScreen, DisableMouseCapture)`,
`terminal.show_cursor()`. -/
def restoreTerminal : List Eff :=
  [.disableRawMode, .leaveAltScreen, .disableMouseCapture, .showCursor]

/-- The usage message of the missing-argument path (line 73). -/
def usageMsg : String :=
  "supply path argument. Example: /dev/ttyACM0"

/-- The error message of the port-open-failure path (line 89):
`"Couldn't open {port_path}: {e}"`. -/
def openErrMsg (portPath e : String) : String :=
  "Couldn\x27t open " ++ portPath ++ ": " ++ e

/-- The startup path of `main` (lines 52-92), as the list of terminal/console
effects it performs and how it ends.  Inputs: the process arguments (index 0
is the program name; `binding.get(1)` is the serial path) and the outcome of
`open_native_async` on that path.  On the missing-argument and open-failure
paths the terminal is restored, an error is printed and `main` returns
`Ok(())`; otherwise the loop is entered and the first iteration draws a
frame (line 144). -/
def mainStartup (args : List String) (openRes : Except String Unit) :
    List Eff × MainOutcome :=
  let pre : List Eff := [.enableRawMode, .enterAltScreen, .enableMouseCapture]
  match args[1]? with
  | none =>
      (pre ++ restoreTerminal ++ [.printErr usageMsg], .exitedOk)
  | some portPath =>
      match openRes with
      | .error e =>
          (pre ++ restoreTerminal ++ [.printErr (openErrMsg portPath e)], .exitedOk)
      | .ok _ =>
          (pre ++ [.drawFrame], .runningUi)

/-! ## Invariant lemmas shared by several theorems -/

/-- One key event preserves the speed invariant: the commanded speed stays at
or below the ceiling, and the ceiling stays 65535. -/
lemma handleKey_preserves_inv (app : App) (k : KeyEvent)
    (h : app.speed ≤ 65535 ∧ app.max_speed = 65535) :
    (handleKey app k).1.speed ≤ 65535 ∧ (handleKey app k).1.max_speed = 65535 := by
  obtain ⟨h1, h2⟩ := h
  cases k <;>
    simp [handleKey, App.increase_speed, App.decrease_speed, App.set_direction] <;>
    omega

/-- Folding the interaction loop over any event list preserves the speed
invariant of the accumulator. -/
lemma foldl_preserves_inv (events : List KeyEvent)
    (acc : App × List ActuatorCommand)
    (h : acc.1.speed ≤ 65535 ∧ acc.1.max_speed = 65535) :
    (events.foldl
      (fun acc k =>
        let step := handleKey acc.1 k
        (step.1, acc.2 ++ step.2)) acc).1.speed ≤ 65535 ∧
    (events.foldl
      (fun acc k =>
        let step := handleKey acc.1 k
        (step.1, acc.2 ++ step.2)) acc).1.max_speed = 65535 := by
  induction events generalizing acc with
  | nil => exact h
  | cons k ks ih =>
      simp only [List.foldl_cons]
      exact ih _ (handleKey_preserves_inv acc.1 k h)

/-- Every view-model reachable from the initial state satisfies the speed
invariant. -/
lemma run_inv (events : List KeyEvent) :
    (run events).1.speed ≤ 65535 ∧ (run events).1.max_speed = 65535 :=
  foldl_preserves_inv events (App.new, []) (by simp [App.new])

/-! ## Claim theorems -/

/-- C1: from the initial state, every sequence of input events keeps the
commanded speed in `[0, max_speed]` with `max_speed = 65535` (the lower bound
is inherent in the `Nat` model of `u32`); `increase_speed amount` sets the
speed to `min (speed + amount) max_speed` (whenever the `u32` sum does not
wrap), and `decrease_speed` saturates at 0 over the integers rather than
wrapping below zero. -/
theorem C1_speed_clamped :
    (∀ events : List KeyEvent,
      (run events).1.speed ≤ (run events).1.max_speed ∧
      (run events).1.max_speed = 65535) ∧
    (∀ (app : App) (amount : Nat), app.speed + amount < 2 ^ 32 →
      (app.increase_speed amount).speed = min (app.speed + amount) app.max_speed) ∧
    (∀ (app : App) (amount : Nat),
      ((app.decrease_speed amount).speed : Int) =
        max ((app.speed : Int) - (amount : Int)) 0) := by
  refine ⟨fun events => ?_, fun app amount h => ?_, fun app amount => ?_⟩
  · obtain ⟨h1, h2⟩ := run_inv events
    exact ⟨by omega, h2⟩
  · simp only [App.increase_speed, Nat.mod_eq_of_lt h]
  · simp only [App.decrease_speed]
    omega

/-- C1 witness: the clamp theorem applied at the singleton event list
`[Up]` and at a concrete increase from the initial state. -/
theorem C1_speed_clamped_witness :
    ((run [KeyEvent.Up]).1.speed ≤ (run [KeyEvent.Up]).1.max_speed) ∧
    (App.new.increase_speed 70000).speed = min (App.new.speed + 70000) App.new.max_speed ∧
    ((App.new.decrease_speed 70000).speed : Int) =
      max ((App.new.speed : Int) - (70000 : Int)) 0 :=
  ⟨(C1_speed_clamped.1 [KeyEvent.Up]).1,
   C1_speed_clamped.2.1 App.new 70000 (by decide),
   C1_speed_clamped.2.2 App.new 70000⟩

/-- C2: the switch-actuator key sets the commanded speed to 0, enqueues
exactly `SetSpeed 0` tagged with the previously selected actuator, toggles
the selection (M1 to M2 and M2 to M1), and sets the status message to name
the new selection. -/
theorem C2_switch_actuator (app : App) :
    (handleKey app .CharA).1.speed = 0 ∧
    (handleKey app .CharA).2 = [ActuatorCommand.SetSpeed 0 app.actuator] ∧
    (handleKey app .CharA).1.actuator = app.actuator.toggle ∧
    Actuator.M1.toggle = Actuator.M2 ∧
    Actuator.M2.toggle = Actuator.M1 ∧
    (handleKey app .CharA).1.status_message =
      "Switched to " ++ (app.actuator.toggle).debugStr :=
  ⟨rfl, rfl, rfl, rfl, rfl, rfl⟩

/-- C3: the event sequence `[Up, Up, Plus]` from the initial state leaves the
commanded speed at 7000 and enqueues exactly the three `SetSpeed` commands
1000, 2000, 7000 in order, each tagged with the initially selected
actuator. -/
theorem C3_scenario_up_up_plus :
    (run [KeyEvent.Up, KeyEvent.Up, KeyEvent.CharPlus]).1.speed = 7000 ∧
    (run [KeyEvent.Up, KeyEvent.Up, KeyEvent.CharPlus]).2 =
      [ActuatorCommand.SetSpeed 1000 App.new.actuator,
       ActuatorCommand.SetSpeed 2000 App.new.actuator,
       ActuatorCommand.SetSpeed 7000 App.new.actuator] := by
  constructor <;> rfl

/-- C4: on every failed `read_exact` (partial read, timeout, or other I/O
error) the telemetry-reader iteration publishes nothing to the telemetry
queue, generates no status message, continues looping, and leaves the
view-model (in particular its last telemetry sample) unchanged. -/
theorem C4_failed_read_silent (app : App) (e : ReadError) :
    telemetryIter (.error e) = (none, [], true) ∧
    applyTelemetry app (telemetryIter (.error e)).1 = app :=
  ⟨rfl, rfl⟩

/-- C5: on both startup error paths — missing path argument (no argument at
index 1) and serial-port open failure — `main` performs exactly the terminal
restore sequence (raw mode off, alternate screen left, mouse capture off,
cursor shown) before printing the error to stderr, never draws a UI frame,
and returns `Ok`. -/
theorem C5_startup_errors :
    (∀ (args : List String) (openRes : Except String Unit),
      args[1]? = none →
      mainStartup args openRes =
        ([.enableRawMode, .enterAltScreen, .enableMouseCapture] ++
          restoreTerminal ++ [.printErr usageMsg], .exitedOk) ∧
      Eff.drawFrame ∉ (mainStartup args openRes).1) ∧
    (∀ (arg0 portPath : String) (rest : List String) (e : String),
      mainStartup (arg0 :: portPath :: rest) (.error e) =
        ([.enableRawMode, .enterAltScreen, .enableMouseCapture] ++
          restoreTerminal ++ [.printErr (openErrMsg portPath e)], .exitedOk) ∧
      Eff.drawFrame ∉ (mainStartup (arg0 :: portPath :: rest) (.error e)).1) := by
  constructor
  · intro args openRes h
    constructor
    · simp [mainStartup, h]
    · simp [mainStartup, h, restoreTerminal]
  · intro arg0 portPath rest e
    constructor
    · simp [mainStartup]
    · simp [mainStartup, restoreTerminal]

/-- C5 witness: the missing-argument case at a concrete single-element
argument list, and the open-failure case at concrete arguments. -/
theorem C5_startup_errors_witness :
    (mainStartup ["controller"] (Except.ok ()) =
      ([.enableRawMode, .enterAltScreen, .enableMouseCapture] ++
        restoreTerminal ++ [.printErr usageMsg], .exitedOk) ∧
     Eff.drawFrame ∉ (mainStartup ["controller"] (Except.ok ())).1) ∧
    (mainStartup ["controller", "/dev/ttyACM0"] (Except.error "busy") =
      ([.enableRawMode, .enterAltScreen, .enableMouseCapture] ++
        restoreTerminal ++ [.printErr (openErrMsg "/dev/ttyACM0" "busy")], .exitedOk) ∧
     Eff.drawFrame ∉ (mainStartup ["controller", "/dev/ttyACM0"] (Except.error "busy")).1) :=
  ⟨C5_startup_errors.1 ["controller"] (Except.ok ()) rfl,
   C5_startup_errors.2 "controller" "/dev/ttyACM0" [] "busy"⟩

/-- C6: the dispatcher sends a status message naming the I/O error on every
write failure regardless of the command (and propagates nothing fatal: the
step is total), and on success sends the applied effect — the new speed value
for SetSpeed, or the direction name for SetDirection. -/
theorem C6_dispatch_status :
    (∀ (cmd : ActuatorCommand) (e : String),
      dispatchStep cmd (.error e) = "Serial error: " ++ e) ∧
    (∀ (speed : Nat) (a : Actuator) (n : Nat),
      dispatchStep (.SetSpeed speed a) (.ok n) = "Set speed to " ++ toString speed) ∧
    (∀ (a : Actuator) (n : Nat),
      dispatchStep (.SetDirection .Forward a) (.ok n) = "Set direction to forward") ∧
    (∀ (a : Actuator) (n : Nat),
      dispatchStep (.SetDirection .Backward a) (.ok n) = "Set direction to backward") :=
  ⟨fun _ _ => rfl, fun _ _ _ => rfl, fun _ _ => rfl, fun _ _ => rfl⟩

/-- C7: for every 64-bit pattern (the model of an `f64` value), decomposing
it into its 8 little-endian bytes and recomposing them as
`f64::from_le_bytes` does yields back exactly the original pattern. -/
theorem C7_le_roundtrip (x : Nat) (hx : x < 2 ^ 64) :
    fromLeBytes (toLeBytes64 x) = x := by
  simp only [fromLeBytes, toLeBytes64, List.foldr]
  omega

/-- C7 witness: the round-trip at a concrete bit pattern. -/
theorem C7_le_roundtrip_witness :
    (4614256656552045848 < 2 ^ 64) ∧
    fromLeBytes (toLeBytes64 4614256656552045848) = 4614256656552045848 :=
  ⟨by decide, C7_le_roundtrip 4614256656552045848 (by decide)⟩

/-- C8: the frames for `SetSpeed 1234 M1` and `SetSpeed 1234 M2` have the
same length and agree at the opcode byte (index 0) and both speed bytes
(indices 2 and 3), differing only at the actuator-id byte (index 1). -/
theorem C8_serialize_actuator_field_only :
    (ActuatorCommand.SetSpeed 1234 .M1).serialize.length = 4 ∧
    (ActuatorCommand.SetSpeed 1234 .M2).serialize.length = 4 ∧
    (ActuatorCommand.SetSpeed 1234 .M1).serialize.get? 0 =
      (ActuatorCommand.SetSpeed 1234 .M2).serialize.get? 0 ∧
    (ActuatorCommand.SetSpeed 1234 .M1).serialize.get? 2 =
      (ActuatorCommand.SetSpeed 1234 .M2).serialize.get? 2 ∧
    (ActuatorCommand.SetSpeed 1234 .M1).serialize.get? 3 =
      (ActuatorCommand.SetSpeed 1234 .M2).serialize.get? 3 ∧
    (ActuatorCommand.SetSpeed 1234 .M1).serialize.get? 1 ≠
      (ActuatorCommand.SetSpeed 1234 .M2).serialize.get? 1 := by
  decide

/-- C9: every `SetSpeed` command a handler enqueues from a reachable
view-model carries exactly the post-handler commanded speed, and that value
fits in 16 bits — the `as u16` cast never truncates. -/
theorem C9_cast_lossless (events : List KeyEvent) (k : KeyEvent)
    (s : Nat) (a : Actuator)
    (hmem : ActuatorCommand.SetSpeed s a ∈ (handleKey (run events).1 k).2) :
    s = (handleKey (run events).1 k).1.speed ∧ s < 2 ^ 16 := by
  obtain ⟨h1, h2⟩ := run_inv events
  cases k with
  | CharQ =>
      simp only [handleKey] at hmem
      exact absurd hmem (List.not_mem_nil _)
  | Other =>
      simp only [handleKey] at hmem
      exact absurd hmem (List.not_mem_nil _)
  | Left =>
      simp only [handleKey, App.set_direction] at hmem
      rw [List.mem_singleton] at hmem
      exact ActuatorCommand.noConfusion hmem
  | Right =>
      simp only [handleKey, App.set_direction] at hmem
      rw [List.mem_singleton] at hmem
      exact ActuatorCommand.noConfusion hmem
  | CharS =>
      simp only [handleKey] at hmem ⊢
      rw [List.mem_singleton] at hmem
      injection hmem with hs ha
      omega
  | CharA =>
      simp only [handleKey] at hmem ⊢
      rw [List.mem_singleton] at hmem
      injection hmem with hs ha
      omega
  | Up =>
      simp only [handleKey, App.increase_speed] at hmem ⊢
      rw [List.mem_singleton] at hmem
      injection hmem with hs ha
      omega
  | Down =>
      simp only [handleKey, App.decrease_speed] at hmem ⊢
      rw [List.mem_singleton] at hmem
      injection hmem with hs ha
      omega
  | CharPlus =>
      simp only [handleKey, App.increase_speed] at hmem ⊢
      rw [List.mem_singleton] at hmem
      injection hmem with hs ha
      omega
  | CharMinus =>
      simp only [handleKey, App.decrease_speed] at hmem ⊢
      rw [List.mem_singleton] at hmem
      injection hmem with hs ha
      omega

/-- C9 witness: the cast-losslessness theorem applied to the first `Up`
event from the initial state. -/
theorem C9_cast_lossless_witness :
    (ActuatorCommand.SetSpeed 1000 .M1 ∈ (handleKey (run []).1 .Up).2) ∧
    (1000 = (handleKey (run []).1 .Up).1.speed ∧ 1000 < 2 ^ 16) :=
  ⟨by decide, C9_cast_lossless [] .Up 1000 .M1 (by decide)⟩

/-- C10: the speed-changing handlers (stop, up, down, plus, minus) leave the
direction and the selected actuator unchanged, and the direction handlers
(left, right) leave the speed and the selected actuator unchanged. -/
theorem C10_frame_conditions (app : App) :
    ((handleKey app .CharS).1.direction = app.direction ∧
      (handleKey app .CharS).1.actuator = app.actuator) ∧
    ((handleKey app .Up).1.direction = app.direction ∧
      (handleKey app .Up).1.actuator = app.actuator) ∧
    ((handleKey app .Down).1.direction = app.direction ∧
      (handleKey app .Down).1.actuator = app.actuator) ∧
    ((handleKey app .CharPlus).1.direction = app.direction ∧
      (handleKey app .CharPlus).1.actuator = app.actuator) ∧
    ((handleKey app .CharMinus).1.direction = app.direction ∧
      (handleKey app .CharMinus).1.actuator = app.actuator) ∧
    ((handleKey app .Left).1.speed = app.speed ∧
      (handleKey app .Left).1.actuator = app.actuator) ∧
    ((handleKey app .Right).1.speed = app.speed ∧
      (handleKey app .Right).1.actuator = app.actuator) := by
  simp [handleKey, App.increase_speed, App.decrease_speed, App.set_direction]

end ActuatorController
